import Mathlib

/-!
# λF risk dashboard — shallow embedding and verification

Embedding of `src/lambda_f_panel.py`, a Streamlit dashboard that fetches a
rolling history of the composite instability score λF from a Firestore
collection, derives a trend delta, and renders a risk state.

Modelling choices:
* Python floats become `ℚ`; Firestore timestamps become `Int` (the code only
  compares and sorts them; `pd.to_datetime` is the identity on this model).
* A raw Firestore document (`doc.to_dict()`) becomes `Doc`, whose optional
  fields model missing dictionary keys.  The field set follows the store
  schema (`timestamp`, `lambda_F`, `status`, `source_scores`); the code's
  accessors determine which of them are actually read.
* The store query's outcome is an explicit input: `Except.error e` models the
  query (or result iteration) raising, `Except.ok docs` a successful query.
* Streamlit message boxes (`st.error` / `st.warning` / `st.info`) become the
  side channel `Diag`; `fetch_lambda_f_data` returns its history together
  with the diagnostics it emitted, so "no exception propagates" is the
  totality of the Lean function.
-/

/-- Per-source score map stored under the `source_scores` key of a document
(store schema; each key optional). -/
structure SourceScores where
  fearAndGreed : Option ℚ
  redditHype : Option ℚ
  volumeSpike : Option ℚ
deriving DecidableEq

/-- A raw store document, as produced by `doc.to_dict()`.  Optional fields
model keys that may be absent from the dictionary. -/
structure Doc where
  timestamp : Option Int
  lambda_F : Option ℚ
  status : Option String
  source_scores : Option SourceScores
deriving DecidableEq

/-- The Firestore client handle (`db`); only its identity matters here. -/
structure DbClient where
  clientId : Nat
deriving DecidableEq

/-- One row of the DataFrame after `dropna(subset=['timestamp','lambda_F'])`:
both required fields are present. -/
structure Record where
  timestamp : Int
  lambda_F : ℚ
  status : String
deriving DecidableEq

/-- One row of the DataFrame as first assembled in the fetch loop, before
`dropna`: `timestamp` and `lambda_F` may still be missing. -/
structure RawRow where
  timestamp : Option Int
  lambda_F : Option ℚ
  status : String
deriving DecidableEq

/-- A Streamlit message box emitted on the UI side channel. -/
inductive Diag where
  | error : String → Diag
  | warning : String → Diag
  | info : String → Diag
deriving DecidableEq

/-- What `fetch_lambda_f_data` delivers: the (possibly empty) history plus
the diagnostics emitted while fetching. -/
structure FetchResult where
  history : List Record
  diagnostics : List Diag
deriving DecidableEq

/-- The row appended for one document in the fetch loop:
`doc_data.get("timestamp")`, `doc_data.get("lambda_F")`,
`doc_data.get("status", "N/A")`.  No other key of the document is read. -/
def docToRow (d : Doc) : RawRow :=
  { timestamp := d.timestamp
    lambda_F := d.lambda_F
    status := d.status.getD ("N/A") }

/-- Effect of `df.dropna(subset=['timestamp', 'lambda_F'])` on one row: kept
(as a validated `Record`) exactly when both fields are present. -/
def dropnaRow : RawRow → Option Record
  | { timestamp := some t, lambda_F := some lf, status := s } =>
      some { timestamp := t, lambda_F := lf, status := s }
  | _ => none

/-- Comparison key of `df.sort_values(by="timestamp", ascending=True)`. -/
def timestampLe (a b : Record) : Bool :=
  decide (a.timestamp ≤ b.timestamp)

/-- Body of `fetch_lambda_f_data(_db_client)`: `None` client short-circuits
to an empty frame; a raising query is caught and reported via `st.error`;
otherwise rows are assembled, rows lacking `timestamp` or `lambda_F` are
dropped, and the survivors are sorted ascending by `timestamp`. -/
def fetch_lambda_f_data (db : Option DbClient) (qr : Except String (List Doc)) :
    FetchResult :=
  match db with
  | none => { history := [], diagnostics := [] }
  | some _ =>
    match qr with
    | Except.error e =>
        { history := []
          diagnostics := [Diag.error ("Veri çekilirken bir hata oluştu: " ++ e)] }
    | Except.ok docs =>
        let data := docs.map docToRow
        if data.isEmpty then
          { history := [], diagnostics := [] }
        else
          { history := (data.filterMap dropnaRow).mergeSort timestampLe
            diagnostics := [] }

/-- Documents a query outcome delivered (none when the query raised). -/
def docsOf : Except String (List Doc) → List Doc
  | Except.ok ds => ds
  | Except.error _ => []

/-- Sort direction of a store query. -/
inductive QueryDirection where
  | ascending : QueryDirection
  | descending : QueryDirection
deriving DecidableEq

/-- Shape of a Firestore read:
`collection(...).order_by(...).limit(...).stream()`. -/
structure StoreQuery where
  collection : String
  orderByField : String
  direction : QueryDirection
  limitCount : Nat
deriving DecidableEq

/-- A store operation performed by the dashboard. -/
inductive StoreOp where
  | read : StoreQuery → StoreOp
  | write : String → StoreOp
deriving DecidableEq

/-- Whether a store operation is a read. -/
def StoreOp.isRead : StoreOp → Bool
  | StoreOp.read _ => true
  | StoreOp.write _ => false

/-- Trace of store operations performed by one run of
`fetch_lambda_f_data`: the single read on line 45 of the source when a
client exists, nothing otherwise.  No other statement of the function
touches the store. -/
def fetchStoreOps (db : Option DbClient) : List StoreOp :=
  match db with
  | none => []
  | some _ =>
      [StoreOp.read
        { collection := "lambdaF"
          orderByField := "timestamp"
          direction := QueryDirection.descending
          limitCount := 30 }]

/-- Chart object built by `create_time_series_chart`: the plotted
`(timestamp, lambda_F)` points, the fixed y-axis range, and the horizontal
threshold lines in the order `add_hline` is called. -/
structure TimeSeriesChart where
  timeSeries : List (Int × ℚ)
  yaxisRange : ℚ × ℚ
  hlines : List ℚ
deriving DecidableEq

/-- Body of `create_time_series_chart(df)`: `None` on an empty frame,
otherwise the line chart of `lambda_F` over `timestamp` with y-range
`[0, 1]` and threshold lines at `0.7` and `0.5`. -/
def create_time_series_chart (df : List Record) : Option TimeSeriesChart :=
  if df.isEmpty then none
  else
    some { timeSeries := df.map (fun r => (r.timestamp, r.lambda_F))
           yaxisRange := (0, 1)
           hlines := [7/10, 1/2] }

/-- Points actually handed to `st.plotly_chart` in tab 1: none when the
builder returned `None` (the tab shows an info message instead). -/
def plottedTimeSeries (df : List Record) : List (Int × ℚ) :=
  match create_time_series_chart df with
  | some c => c.timeSeries
  | none => []

/-- Metrics of the main body computed when `df_history` is non-empty:
`lambda_f_current = df.iloc[-1]['lambda_F']`,
`status_current = df.iloc[-1]['status']`, and
`delta = lambda_f_current - (df.iloc[-2]['lambda_F'] if len(df) > 1 else 0)`. -/
structure MainMetrics where
  lambda_f_current : ℚ
  status_current : String
  delta : ℚ
deriving DecidableEq

/-- Main-body metric computation, guarded by `if not df_history.empty`.
`iloc[-1]` is the head of the reversed list; `iloc[-2]` (guarded by
`len(df_history) > 1`) is the second element of the reversed list. -/
def mainMetrics (df_history : List Record) : Option MainMetrics :=
  match df_history.reverse with
  | [] => none
  | latest_data :: earlier =>
      let lambda_f_previous : ℚ :=
        match earlier with
        | prev :: _ => prev.lambda_F
        | [] => 0
      some { lambda_f_current := latest_data.lambda_F
             status_current := latest_data.status
             delta := latest_data.lambda_F - lambda_f_previous }

/-- The three message-box states the status column can render. -/
inductive StatusBox where
  | errorBox : StatusBox
  | warningBox : StatusBox
  | successBox : StatusBox
deriving DecidableEq

/-- Status display branch of the main body (lines 138-143):
`st.error` iff the status string is exactly `"Kritik"`, `st.warning` iff it
is exactly `"Riskli"`, `st.success` otherwise. -/
def statusDisplay (status_current : String) : StatusBox :=
  if status_current = "Kritik" then StatusBox.errorBox
  else if status_current = "Riskli" then StatusBox.warningBox
  else StatusBox.successBox

/-- Risk band in the spec's vocabulary. -/
inductive Band where
  | Normal : Band
  | Risky : Band
  | Critical : Band
deriving DecidableEq

/-- Definition following the spec's words, for comparison with the code:
classification is Normal for `lambda_F ≤ 0.5`, Risky for
`0.5 < lambda_F ≤ 0.7`, Critical for `lambda_F > 0.7`. -/
def specClassification (lf : ℚ) : Band :=
  if lf ≤ 1/2 then Band.Normal
  else if lf ≤ 7/10 then Band.Risky
  else Band.Critical

/-- Risk band a rendered message box stands for (error box ↔ Critical,
warning box ↔ Risky, success box ↔ Normal). -/
def bandOfBox : StatusBox → Band
  | StatusBox.errorBox => Band.Critical
  | StatusBox.warningBox => Band.Risky
  | StatusBox.successBox => Band.Normal

/-- Modelled from the spec: the packaged source contains no RiskAnalyzer and
no per-source contribution computation; these weights are the fixed
constants of spec §4.2. -/
def w_fng : ℚ := 40/100

/-- Modelled from the spec: weight of the Reddit hype source (§4.2). -/
def w_reddit : ℚ := 30/100

/-- Modelled from the spec: weight of the volume spike source (§4.2). -/
def w_volume : ℚ := 30/100

/-- Modelled from the spec: `fng_contrib = (fearAndGreed ?? 0)/100 * 0.40`,
with a missing map or key treated as 0 (§4.2). -/
def fng_contrib (source_scores : Option SourceScores) : ℚ :=
  ((source_scores.bind SourceScores.fearAndGreed).getD 0) / 100 * w_fng

/-- Modelled from the spec: `reddit_contrib = (redditHype ?? 0)/100 * 0.30`
(§4.2). -/
def reddit_contrib (source_scores : Option SourceScores) : ℚ :=
  ((source_scores.bind SourceScores.redditHype).getD 0) / 100 * w_reddit

/-- Modelled from the spec: `volume_contrib = (volumeSpike ?? 0)/100 * 0.30`
(§4.2). -/
def volume_contrib (source_scores : Option SourceScores) : ℚ :=
  ((source_scores.bind SourceScores.volumeSpike).getD 0) / 100 * w_volume

/-- One entry of the `st.cache_data` cache: the memoised value and the time
it was stored. -/
structure CacheEntry where
  value : FetchResult
  storedAt : Nat
deriving DecidableEq

/-- TTL of the fetch cache: `st.cache_data(ttl=600)`. -/
def cacheTTL : Nat := 600

/-- Semantics of calling the `st.cache_data(ttl=600)`-decorated fetch at
time `now`: a stored value younger than the TTL is returned as is, without
running the body; otherwise the body runs and its value is stored.  The
Boolean records whether the body ran.  The leading underscore of
`_db_client` excludes the argument from the cache key, so the cache is
keyed on the function alone. -/
def cachedFetch (state : Option CacheEntry) (now : Nat) (db : Option DbClient)
    (qr : Except String (List Doc)) : FetchResult × Option CacheEntry × Bool :=
  match state with
  | some entry =>
      if now < entry.storedAt + cacheTTL then (entry.value, some entry, false)
      else
        let v := fetch_lambda_f_data db qr
        (v, some { value := v, storedAt := now }, true)
  | none =>
      let v := fetch_lambda_f_data db qr
      (v, some { value := v, storedAt := now }, true)

/-- Effect of the refresh button's `st.cache_data.clear()` on the fetch
cache (the subsequent `st.rerun()` re-runs the script, whose next fetch
call then finds an empty cache). -/
def clearCache (_state : Option CacheEntry) : Option CacheEntry :=
  none

/-! ## Helper lemmas -/

/-- A row surviving `dropna` carries its document's `timestamp` and
`lambda_F` values. -/
theorem dropnaRow_some {row : RawRow} {r : Record} (h : dropnaRow row = some r) :
    row.timestamp = some r.timestamp ∧ row.lambda_F = some r.lambda_F := by
  obtain ⟨t, lf, s⟩ := row
  cases t with
  | none => simp [dropnaRow] at h
  | some t =>
    cases lf with
    | none => simp [dropnaRow] at h
    | some lf =>
      simp only [dropnaRow, Option.some.injEq] at h
      subst h
      exact ⟨rfl, rfl⟩

/-- The sorted output of the fetch's `sort_values` step is non-decreasing in
`timestamp`. -/
theorem chain_le_mergeSort (l : List Record) :
    List.Chain' (fun a b : Record => a.timestamp ≤ b.timestamp)
      (l.mergeSort timestampLe) := by
  apply List.Pairwise.chain'
  have h := @List.sorted_mergeSort Record timestampLe
    (fun a b c h₁ h₂ => by
      simp only [timestampLe, decide_eq_true_eq] at h₁ h₂ ⊢
      omega)
    (fun a b => by
      simp only [timestampLe, Bool.or_eq_true, decide_eq_true_eq]
      omega) l
  exact h.imp (fun hab => by simpa [timestampLe] using hab)

/-- History delivered by a successful query: rows assembled, invalid rows
dropped, survivors sorted by `timestamp`. -/
theorem fetch_ok_history (c : DbClient) (docs : List Doc) :
    (fetch_lambda_f_data (some c) (Except.ok docs)).history =
      ((docs.map docToRow).filterMap dropnaRow).mergeSort timestampLe := by
  cases docs with
  | nil => simp [fetch_lambda_f_data]
  | cons d ds => simp [fetch_lambda_f_data]

/-! ## Claim theorems -/

/-- C2: the analyzer's weighted contributions follow the spec formulas
`fng = (fearAndGreed ?? 0)/100 * 0.40`, `reddit = (redditHype ?? 0)/100 * 0.30`,
`volume = (volumeSpike ?? 0)/100 * 0.30`, a wholly missing score map yields
zero contributions, and the three weights sum to 1 regardless of inputs. -/
theorem contrib_formulas_and_weights_sum_one (f r v : ℚ) :
    fng_contrib (some { fearAndGreed := some f, redditHype := some r, volumeSpike := some v }) =
      f / 100 * (40/100) ∧
    reddit_contrib (some { fearAndGreed := some f, redditHype := some r, volumeSpike := some v }) =
      r / 100 * (30/100) ∧
    volume_contrib (some { fearAndGreed := some f, redditHype := some r, volumeSpike := some v }) =
      v / 100 * (30/100) ∧
    fng_contrib none = 0 ∧ reddit_contrib none = 0 ∧ volume_contrib none = 0 ∧
    w_fng + w_reddit + w_volume = 1 := by
  refine ⟨rfl, rfl, rfl, ?_, ?_, ?_, ?_⟩ <;>
    norm_num [fng_contrib, reddit_contrib, volume_contrib, w_fng, w_reddit, w_volume]

/-- C3: for a single-record history the reported delta is that record's
`lambda_F` (implicit zero baseline); for any history of two or more records
it is the last record's `lambda_F` minus the second-to-last's. -/
theorem delta_law (h : List Record) (p r : Record) :
    (mainMetrics [r]).map MainMetrics.delta = some r.lambda_F ∧
    (mainMetrics (h ++ [p, r])).map MainMetrics.delta = some (r.lambda_F - p.lambda_F) := by
  constructor
  · simp [mainMetrics]
  · have hrev : (h ++ [p, r]).reverse = r :: p :: h.reverse := by simp
    simp [mainMetrics, hrev]

/-- C8: with a live client, one run of the fetch performs exactly one store
operation — a read of collection "lambdaF" ordered by `timestamp`
descending with limit 30 — and every operation in its trace is a read. -/
theorem fetch_store_ops_read_only (c : DbClient) :
    fetchStoreOps (some c) =
      [StoreOp.read
        { collection := "lambdaF"
          orderByField := "timestamp"
          direction := QueryDirection.descending
          limitCount := 30 }] ∧
    ((fetchStoreOps (some c)).all StoreOp.isRead) = true :=
  ⟨rfl, rfl⟩

/-- C9: on an empty history the chart builder returns no chart, so the
plotted time series is empty; being a total function, it cannot raise. -/
theorem empty_history_chart_empty :
    create_time_series_chart [] = none ∧ plottedTimeSeries [] = [] :=
  ⟨rfl, rfl⟩

/-- C10: a fetched record whose status string is anything other than
exactly "Kritik" or exactly "Riskli" — including "Critical", "Risky" and
the default "N/A" — is rendered with the success (Normal) box. -/
theorem non_kritik_riskli_renders_success (t : Int) (lf : ℚ) (s : String)
    (h1 : s ≠ "Kritik") (h2 : s ≠ "Riskli") :
    statusDisplay (Record.mk t lf s).status = StatusBox.successBox := by
  simp [statusDisplay, h1, h2]

/-- C10 witness: the English label "Critical" renders the success box. -/
theorem non_kritik_riskli_renders_success_witness :
    statusDisplay (Record.mk 0 (8/10) "Critical").status = StatusBox.successBox :=
  non_kritik_riskli_renders_success 0 (8/10) "Critical" (by decide) (by decide)

/-- C6 counterexample: two documents agreeing on `timestamp`, `lambda_F`
and `status` but differing in `source_scores.fearAndGreed` produce the very
same fetched row, so the record built from a document cannot carry the
`source_scores` subfields the claim lists. -/
theorem fetch_ignores_source_scores_cex :
    docToRow
        { timestamp := some 0, lambda_F := some (1/2), status := some "Normal"
          source_scores := some { fearAndGreed := some 10, redditHype := none, volumeSpike := none } } =
      docToRow
        { timestamp := some 0, lambda_F := some (1/2), status := some "Normal"
          source_scores := some { fearAndGreed := some 90, redditHype := none, volumeSpike := none } } ∧
    (some { fearAndGreed := some 10, redditHype := none, volumeSpike := none } : Option SourceScores) ≠
      (some { fearAndGreed := some 90, redditHype := none, volumeSpike := none } : Option SourceScores) := by
  refine ⟨rfl, ?_⟩
  simp only [ne_eq, Option.some.injEq, SourceScores.mk.injEq, not_and]
  intro hf
  norm_num at hf

/-- C6 (amended): the fetch consumes only `timestamp`, `lambda_F` and
`status` (defaulting to "N/A") from each document; the row it builds is
invariant under any change to `source_scores`, whose subfields are never
read. -/
theorem fetch_consumes_only_three_fields (d : Doc) (ss : Option SourceScores) :
    docToRow d = docToRow { d with source_scores := ss } ∧
    docToRow d =
      { timestamp := d.timestamp, lambda_F := d.lambda_F, status := d.status.getD ("N/A") } :=
  ⟨rfl, rfl⟩

/-- C4: every history the fetch returns is non-decreasing in `timestamp`,
and each of its records stems from a delivered document carrying non-null
`timestamp` and `lambda_F` (documents missing either field are dropped). -/
theorem fetch_history_sorted_and_validated (db : Option DbClient)
    (qr : Except String (List Doc)) :
    List.Chain' (fun a b : Record => a.timestamp ≤ b.timestamp)
      (fetch_lambda_f_data db qr).history ∧
    ((fetch_lambda_f_data db qr).history.all fun r =>
      (docsOf qr).any fun d =>
        decide (d.timestamp = some r.timestamp) && decide (d.lambda_F = some r.lambda_F)) = true := by
  constructor
  · cases db with
    | none => simp [fetch_lambda_f_data]
    | some c =>
      cases qr with
      | error e => simp [fetch_lambda_f_data]
      | ok docs =>
        rw [fetch_ok_history]
        exact chain_le_mergeSort _
  · cases db with
    | none => simp [fetch_lambda_f_data]
    | some c =>
      cases qr with
      | error e => simp [fetch_lambda_f_data]
      | ok docs =>
        rw [fetch_ok_history]
        simp only [List.all_eq_true, List.any_eq_true, docsOf, Bool.and_eq_true,
          decide_eq_true_eq]
        intro r hr
        rw [List.mem_mergeSort] at hr
        obtain ⟨row, hrow, hdrop⟩ := List.mem_filterMap.mp hr
        obtain ⟨d, hd, rfl⟩ := List.mem_map.mp hrow
        obtain ⟨ht, hl⟩ := dropnaRow_some hdrop
        exact ⟨d, hd, ht, hl⟩

/-- C5 counterexample: a query that succeeds but delivers nothing usable
(here: no documents at all) makes the fetch return an empty sequence with
no diagnostic on the side channel, contradicting the claim that the
nothing-usable case comes with a warning diagnostic. -/
theorem fetch_empty_result_no_diagnostic :
    (fetch_lambda_f_data (some { clientId := 0 }) (Except.ok [])).history = [] ∧
    (fetch_lambda_f_data (some { clientId := 0 }) (Except.ok [])).diagnostics = [] :=
  ⟨rfl, rfl⟩

/-- C5 (amended): when the store query raises, the fetch catches it and
returns an empty sequence together with an error-level diagnostic on the
side channel; when the query succeeds but yields nothing usable, it
returns an empty sequence with no diagnostic; no exception propagates
(the fetch is a total function into `FetchResult`). -/
theorem fetch_failure_and_empty_behaviour (e : String) (c : DbClient) (ds : List Doc)
    (hnone : (ds.map docToRow).filterMap dropnaRow = []) :
    (fetch_lambda_f_data (some c) (Except.error e)).history = [] ∧
    (fetch_lambda_f_data (some c) (Except.error e)).diagnostics =
      [Diag.error ("Veri çekilirken bir hata oluştu: " ++ e)] ∧
    (fetch_lambda_f_data (some c) (Except.ok ds)).history = [] ∧
    (fetch_lambda_f_data (some c) (Except.ok ds)).diagnostics = [] := by
  refine ⟨rfl, rfl, ?_, ?_⟩
  · rw [fetch_ok_history, hnone, List.mergeSort_nil]
  · cases ds with
    | nil => rfl
    | cons d rest => simp [fetch_lambda_f_data]

/-- C5 witness: a raising query at message "boom" and a succeeding query
whose single document lacks both required fields. -/
theorem fetch_failure_and_empty_behaviour_witness :
    (fetch_lambda_f_data (some { clientId := 0 }) (Except.error "boom")).history = [] ∧
    (fetch_lambda_f_data (some { clientId := 0 }) (Except.error "boom")).diagnostics =
      [Diag.error ("Veri çekilirken bir hata oluştu: " ++ "boom")] ∧
    (fetch_lambda_f_data (some { clientId := 0 })
      (Except.ok [{ timestamp := none, lambda_F := none, status := none, source_scores := none }])).history = [] ∧
    (fetch_lambda_f_data (some { clientId := 0 })
      (Except.ok [{ timestamp := none, lambda_F := none, status := none, source_scores := none }])).diagnostics = [] :=
  fetch_failure_and_empty_behaviour "boom" { clientId := 0 }
    [{ timestamp := none, lambda_F := none, status := none, source_scores := none }]
    (by simp [docToRow, dropnaRow])

/-- C7: a cached fetch call finding an entry younger than the 600-second
TTL returns the previously computed sequence without running the querying
body, and the refresh action's cache clear empties the cache so that the
next call runs the body (re-queries) again. -/
theorem cache_hit_and_invalidate (entry : CacheEntry) (now : Nat)
    (db : Option DbClient) (qr : Except String (List Doc)) (st : Option CacheEntry)
    (hfresh : now < entry.storedAt + 600) :
    cachedFetch (some entry) now db qr = (entry.value, some entry, false) ∧
    clearCache st = none ∧
    cachedFetch (clearCache st) now db qr =
      (fetch_lambda_f_data db qr,
       some { value := fetch_lambda_f_data db qr, storedAt := now }, true) := by
  refine ⟨?_, rfl, rfl⟩
  simp [cachedFetch, cacheTTL, hfresh]

/-- C7 witness: a cache hit one second after storing, and a cleared cache
forcing the body to run. -/
theorem cache_hit_and_invalidate_witness :
    cachedFetch (some { value := { history := [], diagnostics := [] }, storedAt := 0 }) 1
        none (Except.ok []) =
      ({ history := [], diagnostics := [] },
       some { value := { history := [], diagnostics := [] }, storedAt := 0 }, false) ∧
    clearCache none = none ∧
    cachedFetch (clearCache none) 1 none (Except.ok []) =
      (fetch_lambda_f_data none (Except.ok []),
       some { value := fetch_lambda_f_data none (Except.ok []), storedAt := 1 }, true) :=
  cache_hit_and_invalidate { value := { history := [], diagnostics := [] }, storedAt := 0 } 1
    none (Except.ok []) none (by decide)

/-- C1 counterexample: the dashboard's rendered risk state is not the
two-threshold classification of `lambda_F`.  A fetched record with
`lambda_F = 0.9` and store status "Normal" — which the fetch produces
verbatim from such a document — is rendered with the success (Normal) box
although the spec's breakpoints put `0.9` in the Critical band. -/
theorem display_band_ne_spec_classification :
    (fetch_lambda_f_data (some { clientId := 0 })
        (Except.ok [{ timestamp := some 0, lambda_F := some (9/10), status := some "Normal"
                      source_scores := none }])).history =
      [{ timestamp := 0, lambda_F := 9/10, status := "Normal" }] ∧
    bandOfBox (statusDisplay
        ({ timestamp := 0, lambda_F := 9/10, status := "Normal" } : Record).status) = Band.Normal ∧
    specClassification
        ({ timestamp := 0, lambda_F := 9/10, status := "Normal" } : Record).lambda_F = Band.Critical ∧
    Band.Normal ≠ Band.Critical := by
  refine ⟨?_, ?_, ?_, by decide⟩
  · rw [fetch_ok_history]
    simp [docToRow, dropnaRow, List.mergeSort_singleton]
  · simp [statusDisplay, bandOfBox]
  · norm_num [specClassification]

/-- C1 (amended): the rendered risk state depends only on the
store-provided status string — exactly "Kritik" renders the Critical
(error) box, exactly "Riskli" the Risky (warning) box, any other status
the Normal (success) box — independently of `lambda_F`; the 0.5 and 0.7
breakpoints appear only as the fixed threshold annotation lines of the
time-series chart. -/
theorem display_band_is_status_driven (t₁ t₂ : Int) (l₁ l₂ : ℚ) (s : String)
    (h1 : s ≠ "Kritik") (h2 : s ≠ "Riskli") (x : Record) (h : List Record) :
    statusDisplay (Record.mk t₁ l₁ s).status = statusDisplay (Record.mk t₂ l₂ s).status ∧
    statusDisplay "Kritik" = StatusBox.errorBox ∧
    statusDisplay "Riskli" = StatusBox.warningBox ∧
    statusDisplay s = StatusBox.successBox ∧
    (create_time_series_chart (x :: h)).map TimeSeriesChart.hlines = some [7/10, 1/2] := by
  refine ⟨rfl, by decide, by decide, ?_, ?_⟩
  · simp [statusDisplay, h1, h2]
  · simp [create_time_series_chart]

/-- C1 witness: two records sharing the default status "N/A" but with
`lambda_F` 0.1 and 0.9 render the same box, and a singleton history's
chart carries the threshold lines 0.7 and 0.5. -/
theorem display_band_is_status_driven_witness :
    statusDisplay (Record.mk 0 (1/10) "N/A").status =
      statusDisplay (Record.mk 1 (9/10) "N/A").status ∧
    statusDisplay "Kritik" = StatusBox.errorBox ∧
    statusDisplay "Riskli" = StatusBox.warningBox ∧
    statusDisplay "N/A" = StatusBox.successBox ∧
    (create_time_series_chart
        ({ timestamp := 0, lambda_F := 3/10, status := "Normal" } :: [])).map
      TimeSeriesChart.hlines = some [7/10, 1/2] :=
  display_band_is_status_driven 0 1 (1/10) (9/10) "N/A" (by decide) (by decide)
    { timestamp := 0, lambda_F := 3/10, status := "Normal" } []
